import Mathlib

/-!
# Verification of sc-controller gyro actions and win32 device monitor

Shallow embedding of `src/actions/gyro.c` and
`src/daemon/device_monitor_win32.c`. Doubles are modelled as rationals;
the external math helpers (`anglediff`, `quat2euler`), the conversion
helper `clamp_axis` and the deadzone modifier's `apply` are collaborators
from headers not present in the sources, so they are passed in as an
explicit environment. Mapper actuation calls are recorded as an event
list.
-/

namespace SCC

/-- Modelled from the spec: the axis-identifier layout from
`scc/controller.h` (not present under the sources). Absolute stick and
trigger axes occupy the range up to ABS_MAX; ABS_CNT is the "unset"
marker used as the parameter default; the mouse-relative identifiers
REL_X .. REL_MAX lie in their own range above the absolute range. -/
def ABS_MAX : Nat := 63

/-- Modelled from the spec: the "unset" axis marker (default filled in by
the parameter checker). -/
def ABS_CNT : Nat := 64

/-- Modelled from the spec: first mouse-relative axis identifier (mouse X). -/
def REL_X : Nat := 65

/-- Modelled from the spec: mouse Y relative axis identifier. -/
def REL_Y : Nat := 66

/-- Modelled from the spec: last identifier of the mouse-relative range. -/
def REL_MAX : Nat := 68

/-- A valid axis identifier: an absolute axis, the unset marker, or a
mouse-relative identifier. -/
def ValidAxis (a : Nat) : Prop :=
  a ≤ ABS_MAX ∨ a = ABS_CNT ∨ (REL_X ≤ a ∧ a ≤ REL_MAX)

/-- Modelled from the spec: the output range bounds from `scc/controller.h`. -/
def STICK_PAD_MAX : Int := 32767

/-- Modelled from the spec: lower output range bound. -/
def STICK_PAD_MIN : Int := -32768

/-- Modelled from the spec: the `clamp(min, v, max)` helper from
`scc/utils/math.h` — clamp `v` into `[lo, hi]`. -/
def clamp (lo v hi : ℚ) : ℚ := min (max lo v) hi

/-- The constant `MAGIC = 10430.378350470453` ((2^15)/PI) from `gyroabs`. -/
def MAGIC : ℚ := 10430378350470453 / 1000000000000

/-- The constant `MOUSE_FACTOR = 0.01` from `gyro.c`. -/
def MOUSE_FACTOR : ℚ := 1 / 100

def KW_GYRO : String := "gyro"

def KW_GYROABS : String := "gyroabs"

/-- C `||` on doubles: yields 1.0 when either operand is nonzero, else
0.0 (the result of the C logical-or operator, an `int`, converted back
to `double` on assignment). -/
def c_or (a b : ℚ) : ℚ := if a ≠ 0 ∨ b ≠ 0 then 1 else 0

/-- The `GyroAction` struct (gyro.c lines 30–39). The stored
`ParameterList` (used only by to-string) and the haptic descriptor's
parameters are external small-value plumbing; the haptic descriptor is
modelled by its enabled bit, the deadzone link by an optional instance
identifier. -/
structure GyroAction where
  type : String
  axes : Fin 3 → Nat
  was_out_of_range : Bool
  sensitivity : Fin 3 → ℚ
  ir : Fin 4 → ℚ
  deadzone : Option Nat
  hdata_enabled : Bool
deriving DecidableEq

/-- Calls an action makes back into the Mapper. -/
inductive MapperEvent where
  | SetAxis (axis : Nat) (value : ℚ)
  | MoveMouse (dx dy : ℚ)
  | HapticEffect
deriving DecidableEq

/-- External collaborators used by `gyroabs`: the math helpers from
`scc/utils/math.h`, `clamp_axis` from `scc/conversions.h` and the
deadzone modifier's `scc_deadzone_apply`, none of which are in the
sources. -/
structure GyroEnv where
  anglediff : ℚ → ℚ → ℚ
  quat2euler : ℚ → ℚ → ℚ → ℚ → ℚ × ℚ × ℚ
  clamp_axis : Nat → ℚ → ℚ
  deadzone_apply : Nat → ℚ → ℚ

/-- A concrete trivial environment (used to evaluate the embedding at
concrete inputs where the external helpers do not matter). -/
def env0 : GyroEnv where
  anglediff := fun a b => b - a
  quat2euler := fun _ _ _ _ => (0, 0, 0)
  clamp_axis := fun _ v => v
  deadzone_apply := fun _ v => v

/-- Loop body of the relative `gyro` evaluator (gyro.c lines 94–99): when
the target axis is at most ABS_MAX, write the scaled, clamped rate. -/
def gyro_component (g : GyroAction) (pyr : Fin 3 → ℚ) (i : Fin 3) :
    Option MapperEvent :=
  if g.axes i ≤ ABS_MAX then
    some (.SetAxis (g.axes i)
      (clamp (STICK_PAD_MIN : ℚ) (pyr i * g.sensitivity i * (-10))
        (STICK_PAD_MAX : ℚ)))
  else
    none

/-- The relative `gyro` evaluator (gyro.c lines 90–100): iterate the loop
body over the three components; the struct is not written to. -/
def gyro_step (g : GyroAction) (pyr : Fin 3 → ℚ) :
    GyroAction × List MapperEvent :=
  (g, (List.finRange 3).filterMap (gyro_component g pyr))

/-- The setter `scc_gyroabs_set_deadzone_mod` (gyro.c lines 102–108), abstracted to
its effect on the deadzone link (the reference-count bookkeeping is
modelled separately below): attach the new deadzone. -/
def set_deadzone_mod (g : GyroAction) (dz : Nat) : GyroAction :=
  { g with deadzone := some dz }

/-- Lines 141–148 of `gyroabs`: given the stored `was_out_of_range` bit
and whether any component saturated this call, produce the haptic events
fired and the new value of the bit. The else branch of line 146 also
sets the bit to true. -/
def haptic_update (was : Bool) (out_of_range : Bool) :
    List MapperEvent × Bool :=
  if out_of_range then
    if !was then ([.HapticEffect], true) else ([], was)
  else
    ([], true)

/-- Loop body of the output loop of `gyroabs` (gyro.c lines 155–168):
REL_X/REL_Y go through `move_mouse` scaled by MOUSE_FACTOR and
sensitivity; every other identifier goes through `clamp_axis`, the
attached deadzone if any, and `set_axis`. -/
def gyroabs_out (env : GyroEnv) (g : GyroAction) (pyr : Fin 3 → ℚ)
    (i : Fin 3) : MapperEvent :=
  let axis := g.axes i
  if axis = REL_X then
    .MoveMouse (env.clamp_axis axis (pyr i * MOUSE_FACTOR * g.sensitivity i)) 0
  else if axis = REL_Y then
    .MoveMouse 0 (env.clamp_axis axis (pyr i * MOUSE_FACTOR * g.sensitivity i))
  else
    let val := env.clamp_axis axis (pyr i * g.sensitivity i)
    let val2 := match g.deadzone with
      | some d => env.deadzone_apply d val
      | none => val
    .SetAxis axis val2

/-- The angular difference of line 127 of `gyroabs`:
`anglediff(g->ir[i], pyr[i])` evaluated after the line-126 latch of
`g->ir[i]`. -/
def gyroabs_diff (env : GyroEnv) (g : GyroAction) (pyr0 : Fin 3 → ℚ)
    (i : Fin 3) : ℚ :=
  env.anglediff (c_or (g.ir i.castSucc) (pyr0 i)) (pyr0 i)

/-- The value line 127 of `gyroabs` stores back into `pyr[i]`:
`anglediff(g->ir[i], pyr[i]) * g->sensitivity[i] * MAGIC * 2`. -/
def gyroabs_pyr1 (env : GyroEnv) (g : GyroAction) (pyr0 : Fin 3 → ℚ)
    (i : Fin 3) : ℚ :=
  gyroabs_diff env g pyr0 i * g.sensitivity i * MAGIC * 2

/-- Core of the absolute `gyroabs` evaluator (gyro.c lines 125–168),
taking the already-converted angles `pyr`: latch the reference with the
C logical-or (line 126), compute the scaled angular difference
(line 127), then either the haptic floor/saturate path (lines 129–148)
or the plain clamp (lines 149–153), and finally the output loop. -/
def gyroabs_core (env : GyroEnv) (g : GyroAction) (pyr0 : Fin 3 → ℚ) :
    GyroAction × List MapperEvent :=
  let ir2 : Fin 3 → ℚ := fun i => c_or (g.ir i.castSucc) (pyr0 i)
  let pyr1 : Fin 3 → ℚ := gyroabs_pyr1 env g pyr0
  let hw : (Fin 3 → ℚ) × List MapperEvent × Bool :=
    if g.hdata_enabled then
      let pyr2 : Fin 3 → ℚ := fun i => ((pyr1 i).floor : ℚ)
      let pyr3 : Fin 3 → ℚ := fun i =>
        if pyr2 i > (STICK_PAD_MAX : ℚ) then (STICK_PAD_MAX : ℚ)
        else if pyr2 i < (STICK_PAD_MIN : ℚ) then (STICK_PAD_MIN : ℚ)
        else pyr2 i
      let sat : Fin 3 → Bool := fun i =>
        decide (pyr2 i > (STICK_PAD_MAX : ℚ)) ||
        decide (pyr2 i < (STICK_PAD_MIN : ℚ))
      let oor : Bool := sat 0 || sat 1 || sat 2
      let fw := haptic_update g.was_out_of_range oor
      (pyr3, fw.1, fw.2)
    else
      (fun i => clamp (STICK_PAD_MIN : ℚ) (pyr1 i) (STICK_PAD_MAX : ℚ),
        [], g.was_out_of_range)
  let g2 : GyroAction :=
    { g with
      ir := fun j => if h : (j : ℕ) < 3 then ir2 ⟨j, h⟩ else g.ir j
      was_out_of_range := hw.2.2 }
  (g2, hw.2.1 ++ (List.finRange 3).map (gyroabs_out env g hw.1))

/-- The absolute `gyroabs` evaluator (gyro.c lines 110–169): convert the
sample according to the CF_EUREL_GYROS controller flag (lines 116–123)
and run the core. -/
def gyroabs_step (env : GyroEnv) (g : GyroAction) (eurel : Bool)
    (q0 q1 q2 q3 : Int) : GyroAction × List MapperEvent :=
  let pyr0 : Fin 3 → ℚ :=
    if eurel then
      ![(q0 : ℚ) / MAGIC, (q1 : ℚ) / MAGIC, (q2 : ℚ) / MAGIC]
    else
      let e := env.quat2euler ((q0 : ℚ) / 32768) ((q1 : ℚ) / 32768)
        ((q2 : ℚ) / 32768) ((q3 : ℚ) / 32768)
      ![e.1, e.2.1, e.2.2]
  gyroabs_core env g pyr0

/-- Run a sequence of `gyroabs` calls, collecting all Mapper events. -/
def gyroabs_run (env : GyroEnv) (g : GyroAction)
    (inputs : List (Bool × Int × Int × Int × Int)) :
    GyroAction × List MapperEvent :=
  match inputs with
  | [] => (g, [])
  | (e, q0, q1, q2, q3) :: rest =>
    let r1 := gyroabs_step env g e q0 q1 q2 q3
    let r2 := gyroabs_run env r1.1 rest
    (r2.1, r1.2 ++ r2.2)

/-- Number of `haptic_effect` Mapper calls in an event list. -/
def hapticCount (evs : List MapperEvent) : Nat :=
  evs.countP (fun e => match e with | .HapticEffect => true | _ => false)

/-- Device subsystems appearing in `device_monitor_win32.c`. -/
inductive Subsystem where
  | DINPUT
  | HIDAPI
  | USB
deriving DecidableEq

/-- The `Win32InputDeviceData` record as observed by the win32 monitor:
subsystem tag, vendor/product ids, index, and the DirectInput device
instance data (instance name, and the GUID string that
`StringFromCLSID` produces for it, `none` when that call fails). -/
structure Win32InputDeviceData where
  subsystem : Subsystem
  vendor : Nat
  product : Nat
  idx : Int
  dinput_name : String
  dinput_guid : Option String
deriving DecidableEq

/-- The `HotplugFilter` tagged union: exactly one tag active. `other`
stands for any tag value outside the handled cases (the switch default). -/
inductive HotplugFilter where
  | vendor (v : Nat)
  | product (p : Nat)
  | idx (i : Int)
  | name (s : String)
  | guid (s : String)
  | other
deriving DecidableEq

/-- The hotplug filter test `sccd_device_monitor_test_filter` (device_monitor_win32.c lines
54–88). `use_dinput` models the USE_DINPUT compile-time flag: without
it the NAME and GUID cases fall through to `return false`. The GUID
case compares against the filter's `name` field after formatting the
instance GUID; a failed `StringFromCLSID` (modelled as `none`) returns
false. -/
def sccd_device_monitor_test_filter (use_dinput : Bool)
    (wdev : Win32InputDeviceData) (filter : HotplugFilter) : Bool :=
  match filter with
  | .vendor v => (wdev.subsystem ≠ Subsystem.DINPUT) && (wdev.vendor = v)
  | .product p => (wdev.subsystem ≠ Subsystem.DINPUT) && (wdev.product = p)
  | .idx i => wdev.idx = i
  | .name s =>
    if use_dinput && (wdev.subsystem = Subsystem.DINPUT) then
      wdev.dinput_name = s
    else false
  | .guid s =>
    if use_dinput && (wdev.subsystem = Subsystem.DINPUT) then
      match wdev.dinput_guid with
      | some gs => gs = s
      | none => false
    else false
  | .other => false

/-- The record copy `input_device_copy` (device_monitor_win32.c lines 131–133): the
win32 backend returns NULL unconditionally. -/
def input_device_copy (idev : Win32InputDeviceData) :
    Option Win32InputDeviceData := none

/-- A parameter-checker error (opaque payload), returned by the external
`scc_param_checker_check` collaborator. -/
inductive ParamError where
  | invalid (msg : String)
deriving DecidableEq

/-- The `ActionOE` tagged result: an action, a parameter error, or the
out-of-memory error. -/
inductive ActionOE where
  | param_error (e : ParamError)
  | oom_error
  | ok (g : GyroAction)

/-- The constructor `gyro_constructor` (gyro.c lines 205–242). The external collaborator
results are inputs: `check_result` is what `scc_param_checker_check`
returned, `fill_result` is what `scc_param_checker_fill_defaults`
returned (the as-int views of the first three parameters, `none` on its
allocation failure), `malloc_ok` is whether `malloc` succeeded. -/
def gyro_constructor (keyword : String)
    (check_result : Option ParamError)
    (fill_result : Option (Nat × Nat × Nat))
    (malloc_ok : Bool) : ActionOE :=
  match check_result with
  | some e => .param_error e
  | none =>
    match fill_result with
    | none => .oom_error
    | some axes =>
      if malloc_ok = false then .oom_error
      else
        .ok
          { type := if keyword = KW_GYRO then KW_GYRO else KW_GYROABS
            axes := ![axes.1, axes.2.1, axes.2.2]
            was_out_of_range := false
            sensitivity := ![1, 1, 1]
            ir := ![0, 0, 0, 0]
            deadzone := none
            hdata_enabled := false }

/-- Reference-count bookkeeping state for the deadzone link: the
currently attached instance (the `g->deadzone` pointer, `none` = NULL)
and each instance's reference count. -/
structure RCState where
  attached : Option Nat
  counts : Nat → Nat

/-- The `RC_ADD` step on an object pointer (no-op on NULL). -/
def rcAdd (c : Nat → Nat) (x : Option Nat) : Nat → Nat :=
  match x with
  | none => c
  | some i => Function.update c i (c i + 1)

/-- The `RC_REL` step on an object pointer (no-op on NULL). -/
def rcRel (c : Nat → Nat) (x : Option Nat) : Nat → Nat :=
  match x with
  | none => c
  | some i => Function.update c i (c i - 1)

/-- The setter `scc_gyroabs_set_deadzone_mod` (gyro.c lines 102–108) as its
reference-count trace: first `RC_ADD(deadzone)`, then
`RC_REL(g->deadzone)`, then the pointer swap. Returns the final state
together with the intermediate count table (after the add, before the
release) so that the counts at every point of the operation can be
inspected. -/
def set_deadzone_mod_rc (st : RCState) (dz : Nat) :
    RCState × (Nat → Nat) :=
  let c1 := rcAdd st.counts (some dz)
  let c2 := rcRel c1 st.attached
  ({ attached := some dz, counts := c2 }, c1)

/-- The destructor `gyro_dealloc` (gyro.c lines 70–75) restricted to its deadzone
effect: one `RC_REL(g->deadzone)`. -/
def gyro_dealloc_rc (st : RCState) : Nat → Nat :=
  rcRel st.counts st.attached

/-! ## Helper lemmas and concrete fixtures -/

theorem clamp_eq_self (lo v hi : ℚ) (h1 : lo ≤ v) (h2 : v ≤ hi) :
    clamp lo v hi = v := by
  unfold clamp
  rw [max_eq_right h1, min_eq_left h2]

/-- A concrete relative-gyro action: all three axes target axis 0. -/
def g_wit : GyroAction :=
  { type := KW_GYRO
    axes := fun _ => 0
    was_out_of_range := false
    sensitivity := fun _ => 1
    ir := fun _ => 0
    deadzone := none
    hdata_enabled := false }

/-- A concrete absolute-gyro action with haptics disabled. -/
def g_abs0 : GyroAction :=
  { type := KW_GYROABS
    axes := fun _ => 0
    was_out_of_range := false
    sensitivity := fun _ => 1
    ir := fun _ => 0
    deadzone := none
    hdata_enabled := false }

/-- A concrete absolute-gyro action with haptics enabled. -/
def g_abs_h : GyroAction :=
  { type := KW_GYROABS
    axes := fun _ => 0
    was_out_of_range := false
    sensitivity := fun _ => 1
    ir := fun _ => 0
    deadzone := none
    hdata_enabled := true }

/-- A concrete non-DirectInput device record. -/
def dev_h : Win32InputDeviceData :=
  { subsystem := Subsystem.HIDAPI
    vendor := 10
    product := 20
    idx := 3
    dinput_name := "pad"
    dinput_guid := none }

/-! ## Claims -/

/-- C8: evaluating the relative `gyro` action leaves every field of the
action unchanged — the axes, sensitivity, ir, was_out_of_range, deadzone
and haptic-descriptor fields after the call equal their values before
the call, and the whole record is unchanged. -/
theorem gyro_no_state_change (g : GyroAction) (pyr : Fin 3 → ℚ) :
    (gyro_step g pyr).1.axes = g.axes ∧
    (gyro_step g pyr).1.sensitivity = g.sensitivity ∧
    (gyro_step g pyr).1.ir = g.ir ∧
    (gyro_step g pyr).1.was_out_of_range = g.was_out_of_range ∧
    (gyro_step g pyr).1.deadzone = g.deadzone ∧
    (gyro_step g pyr).1.hdata_enabled = g.hdata_enabled ∧
    (gyro_step g pyr).1 = g :=
  ⟨rfl, rfl, rfl, rfl, rfl, rfl, rfl⟩

/-- C3: the relative `gyro` action is linear in the sample — for any
component whose axis is written, when neither the output at rate `r` nor
at rate `2r` is clamped, the value written for `2r` is exactly twice the
value written for `r`. -/
theorem gyro_relative_linear (g : GyroAction) (pyr : Fin 3 → ℚ) (i : Fin 3)
    (hax : g.axes i ≤ ABS_MAX)
    (hlo : (STICK_PAD_MIN : ℚ) ≤ pyr i * g.sensitivity i * (-10))
    (hhi : pyr i * g.sensitivity i * (-10) ≤ (STICK_PAD_MAX : ℚ))
    (hlo2 : (STICK_PAD_MIN : ℚ) ≤ 2 * (pyr i * g.sensitivity i * (-10)))
    (hhi2 : 2 * (pyr i * g.sensitivity i * (-10)) ≤ (STICK_PAD_MAX : ℚ)) :
    gyro_component g (fun j => 2 * pyr j) i =
      some (.SetAxis (g.axes i) (2 * (pyr i * g.sensitivity i * (-10)))) ∧
    gyro_component g pyr i =
      some (.SetAxis (g.axes i) (pyr i * g.sensitivity i * (-10))) := by
  have key : 2 * pyr i * g.sensitivity i * (-10) =
      2 * (pyr i * g.sensitivity i * (-10)) := by ring
  constructor
  · unfold gyro_component
    rw [if_pos hax, key, clamp_eq_self _ _ _ hlo2 hhi2]
  · unfold gyro_component
    rw [if_pos hax, clamp_eq_self _ _ _ hlo hhi]

/-- Witness for C3 at a concrete action and sample. -/
theorem gyro_relative_linear_witness :
    gyro_component g_wit (fun j => 2 * (fun _ => (1 : ℚ)) j) 0 =
      some (.SetAxis (g_wit.axes 0)
        (2 * ((fun _ => (1 : ℚ)) 0 * g_wit.sensitivity 0 * (-10)))) ∧
    gyro_component g_wit (fun _ => (1 : ℚ)) 0 =
      some (.SetAxis (g_wit.axes 0)
        ((fun _ => (1 : ℚ)) 0 * g_wit.sensitivity 0 * (-10))) :=
  gyro_relative_linear g_wit (fun _ => 1) 0 (by decide)
    (by norm_num [g_wit, STICK_PAD_MIN]) (by norm_num [g_wit, STICK_PAD_MAX])
    (by norm_num [g_wit, STICK_PAD_MIN]) (by norm_num [g_wit, STICK_PAD_MAX])

/-- C6 counterexample: `input_device_copy` on the win32 backend returns
NULL for a concrete device record, so no independent copy is produced. -/
theorem input_device_copy_none_at_dev_h :
    input_device_copy dev_h = none := rfl

/-- C6 (amended): on the win32 backend, `copy()` returns NULL for every
device record — records cannot be duplicated through this operation. -/
theorem input_device_copy_always_none (idev : Win32InputDeviceData) :
    input_device_copy idev = none := rfl

/-- C7: the gyro/gyroabs constructor returns a tagged result and never
throws — the checker's parameter error when validation fails, the OOM
error when default-filling or allocation fails, and otherwise an action
whose axes are the first three parameters, sensitivity (1,1,1), ir all
zeros, deadzone unset, was_out_of_range false and haptics disabled. -/
theorem gyro_constructor_spec (keyword : String) (e : ParamError)
    (fill : Option (Nat × Nat × Nat)) (axs : Nat × Nat × Nat) (mok : Bool) :
    gyro_constructor keyword (some e) fill mok = .param_error e ∧
    gyro_constructor keyword none none mok = .oom_error ∧
    gyro_constructor keyword none (some axs) false = .oom_error ∧
    gyro_constructor keyword none (some axs) true =
      .ok
        { type := if keyword = KW_GYRO then KW_GYRO else KW_GYROABS
          axes := ![axs.1, axs.2.1, axs.2.2]
          was_out_of_range := false
          sensitivity := ![1, 1, 1]
          ir := ![0, 0, 0, 0]
          deadzone := none
          hdata_enabled := false } :=
  ⟨rfl, rfl, rfl, rfl⟩

/-- C4: a relative `gyro` call invokes `set_axis` exactly for those
components whose valid axis identifier is neither the unset marker nor
in the mouse-relative range, writing the rate scaled by the axis's
sensitivity and −10.0, clamped to [STICK_PAD_MIN, STICK_PAD_MAX];
components with unset or mouse-relative axes produce no call. -/
theorem gyro_relative_axis_selection (g : GyroAction) (pyr : Fin 3 → ℚ)
    (i : Fin 3) (hvalid : ValidAxis (g.axes i)) :
    (gyro_step g pyr).2 = (List.finRange 3).filterMap (gyro_component g pyr) ∧
    gyro_component g pyr i =
      (if g.axes i ≠ ABS_CNT ∧ ¬(REL_X ≤ g.axes i ∧ g.axes i ≤ REL_MAX) then
        some (.SetAxis (g.axes i)
          (clamp (STICK_PAD_MIN : ℚ) (pyr i * g.sensitivity i * (-10))
            (STICK_PAD_MAX : ℚ)))
      else none) := by
  refine ⟨rfl, ?_⟩
  unfold gyro_component
  rcases hvalid with h | h | h
  · rw [if_pos h, if_pos]
    simp only [ABS_MAX, ABS_CNT, REL_X, REL_MAX] at h ⊢
    omega
  · rw [if_neg, if_neg]
    · simp only [ABS_MAX, ABS_CNT, REL_X, REL_MAX] at h ⊢
      omega
    · simp only [ABS_MAX, ABS_CNT, REL_X, REL_MAX] at h ⊢
      omega
  · rw [if_neg, if_neg]
    · simp only [ABS_MAX, ABS_CNT, REL_X, REL_MAX] at h ⊢
      omega
    · simp only [ABS_MAX, ABS_CNT, REL_X, REL_MAX] at h ⊢
      omega

/-- Witness for C4 at a concrete action (axis 0, a plain absolute axis). -/
theorem gyro_relative_axis_selection_witness :
    (gyro_step g_wit (fun _ => (1 : ℚ))).2 =
      (List.finRange 3).filterMap (gyro_component g_wit (fun _ => (1 : ℚ))) ∧
    gyro_component g_wit (fun _ => (1 : ℚ)) 0 =
      (if g_wit.axes 0 ≠ ABS_CNT ∧
          ¬(REL_X ≤ g_wit.axes 0 ∧ g_wit.axes 0 ≤ REL_MAX) then
        some (.SetAxis (g_wit.axes 0)
          (clamp (STICK_PAD_MIN : ℚ)
            ((fun _ => (1 : ℚ)) 0 * g_wit.sensitivity 0 * (-10))
            (STICK_PAD_MAX : ℚ)))
      else none) :=
  gyro_relative_axis_selection g_wit (fun _ => 1) 0 (Or.inl (by decide))

/-- C5: `sccd_device_monitor_test_filter` is total (returns a plain
boolean) — a VENDOR filter matches exactly the non-DirectInput devices
with the filter's vendor id, and a NAME or GUID filter evaluated against
a device whose subsystem cannot report a name or GUID returns false. -/
theorem test_filter_spec (ud : Bool) (wdev : Win32InputDeviceData)
    (v : Nat) (s t : String) :
    (sccd_device_monitor_test_filter ud wdev (.vendor v) = true ↔
      wdev.subsystem ≠ Subsystem.DINPUT ∧ wdev.vendor = v) ∧
    (wdev.subsystem ≠ Subsystem.DINPUT →
      sccd_device_monitor_test_filter ud wdev (.name s) = false) ∧
    (wdev.subsystem ≠ Subsystem.DINPUT →
      sccd_device_monitor_test_filter ud wdev (.guid t) = false) := by
  refine ⟨?_, ?_, ?_⟩
  · simp [sccd_device_monitor_test_filter]
  · intro h
    simp [sccd_device_monitor_test_filter, h]
  · intro h
    simp [sccd_device_monitor_test_filter, h]

/-- Witness for C5 at a concrete HID device record. -/
theorem test_filter_spec_witness :
    sccd_device_monitor_test_filter true dev_h (.name "x") = false ∧
    sccd_device_monitor_test_filter true dev_h (.guid "y") = false :=
  ⟨(test_filter_spec true dev_h 10 "x" "y").2.1 (by decide),
   (test_filter_spec true dev_h 10 "x" "y").2.2 (by decide)⟩

/-- C10: `scc_gyroabs_set_deadzone_mod` acquires the new reference before
releasing the old one — given the new deadzone is live, its count is
still positive at the intermediate point and after the swap (also when
re-attaching the very same instance, where the count returns to its old
value), and `gyro_dealloc` releases the attached deadzone exactly once. -/
theorem set_deadzone_rc_safe (c : Nat → Nat) (att : Option Nat) (d : Nat)
    (hd : 1 ≤ c d) :
    1 ≤ (set_deadzone_mod_rc ⟨att, c⟩ d).2 d ∧
    1 ≤ (set_deadzone_mod_rc ⟨att, c⟩ d).1.counts d ∧
    (set_deadzone_mod_rc ⟨att, c⟩ d).1.attached = some d ∧
    (att = some d → (set_deadzone_mod_rc ⟨att, c⟩ d).1.counts d = c d) ∧
    (∀ a, att = some a → gyro_dealloc_rc ⟨att, c⟩ a = c a - 1) ∧
    (att = none → gyro_dealloc_rc ⟨att, c⟩ = c) := by
  refine ⟨?_, ?_, rfl, ?_, ?_, ?_⟩
  · show 1 ≤ Function.update c d (c d + 1) d
    rw [Function.update_same]
    omega
  · rcases att with _ | a
    · show 1 ≤ Function.update c d (c d + 1) d
      rw [Function.update_same]
      omega
    · by_cases hda : a = d
      · subst hda
        show 1 ≤ Function.update (Function.update c a (c a + 1)) a
          (Function.update c a (c a + 1) a - 1) a
        rw [Function.update_same, Function.update_same]
        omega
      · show 1 ≤ Function.update (Function.update c d (c d + 1)) a
          (Function.update c d (c d + 1) a - 1) d
        rw [Function.update_noteq (Ne.symm hda), Function.update_same]
        omega
  · intro h
    subst h
    show Function.update (Function.update c d (c d + 1)) d
      (Function.update c d (c d + 1) d - 1) d = c d
    rw [Function.update_same, Function.update_same]
    omega
  · intro a ha
    subst ha
    show Function.update c a (c a - 1) a = c a - 1
    rw [Function.update_same]
  · intro h
    subst h
    rfl

/-- Witness for C10: re-attaching the already attached instance 5 with
count 1 keeps its count at 1 through and after the swap. -/
theorem set_deadzone_rc_safe_witness :
    1 ≤ (set_deadzone_mod_rc ⟨some 5, fun _ => 1⟩ 5).2 5 ∧
    (set_deadzone_mod_rc ⟨some 5, fun _ => 1⟩ 5).1.counts 5 =
      (fun _ => 1 : Nat → Nat) 5 :=
  ⟨(set_deadzone_rc_safe (fun _ => 1) (some 5) 5 (by decide)).1,
   (set_deadzone_rc_safe (fun _ => 1) (some 5) 5 (by decide)).2.2.2.1 rfl⟩

/-- C1 (code-bug evidence): on a first sample with a nonzero current
angle, the `||` latch of line 126 stores 1.0 into the running reference,
not the current angle — here the angle is 5215/MAGIC, which is neither 0
nor 1, yet `ir[0]` becomes exactly 1 after the call. -/
theorem gyroabs_latch_stores_one :
    (gyroabs_step env0 g_abs0 true 5215 0 0 0).1.ir 0 = 1 ∧
    (5215 : ℚ) / MAGIC ≠ 0 ∧ (5215 : ℚ) / MAGIC ≠ 1 := by
  refine ⟨?_, by norm_num [MAGIC], by norm_num [MAGIC]⟩
  show c_or (g_abs0.ir (0 : Fin 3).castSucc) ((5215 : ℚ) / MAGIC) = 1
  unfold c_or g_abs0
  rw [if_pos]
  right
  norm_num [MAGIC]

theorem hapticCount_append (l1 l2 : List MapperEvent) :
    hapticCount (l1 ++ l2) = hapticCount l1 + hapticCount l2 :=
  List.countP_append _ _ _

/-- The haptic branch always leaves the memory bit set — both the fired
edge (line 144) and the in-range else branch (line 147) store true, and
in the remaining case the bit was already true. -/
theorem haptic_update_snd (was oor : Bool) :
    (haptic_update was oor).2 = true := by
  cases was <;> cases oor <;> rfl

/-- One haptic call fires at most once, and never when the memory bit is
already set. -/
theorem haptic_update_count (was oor : Bool) :
    hapticCount (haptic_update was oor).1 ≤ (if was then 0 else 1) := by
  cases was <;> cases oor <;> simp [haptic_update, hapticCount]

/-- The output loop of `gyroabs` emits only axis and mouse events. -/
theorem gyroabs_out_ne_haptic (env : GyroEnv) (g : GyroAction)
    (pyr : Fin 3 → ℚ) (i : Fin 3) :
    gyroabs_out env g pyr i ≠ .HapticEffect := by
  unfold gyroabs_out
  simp only []
  split_ifs <;> simp

theorem hapticCount_out_map (env : GyroEnv) (g : GyroAction)
    (pyr : Fin 3 → ℚ) :
    hapticCount ((List.finRange 3).map (gyroabs_out env g pyr)) = 0 := by
  rw [hapticCount, List.countP_eq_zero]
  intro e he
  obtain ⟨i, _, rfl⟩ := List.mem_map.mp he
  have hne := gyroabs_out_ne_haptic env g pyr i
  cases hout : gyroabs_out env g pyr i <;> simp_all

theorem gyroabs_core_haptic_bound (env : GyroEnv) (g : GyroAction)
    (pyr0 : Fin 3 → ℚ) (hen : g.hdata_enabled = true) :
    (gyroabs_core env g pyr0).1.hdata_enabled = true ∧
    (gyroabs_core env g pyr0).1.was_out_of_range = true ∧
    hapticCount (gyroabs_core env g pyr0).2 ≤
      (if g.was_out_of_range then 0 else 1) := by
  refine ⟨hen, ?_, ?_⟩
  · simp only [gyroabs_core, hen, if_true]
    exact haptic_update_snd _ _
  · simp only [gyroabs_core, hen, if_true]
    rw [hapticCount_append, hapticCount_out_map]
    simpa using haptic_update_count g.was_out_of_range _

theorem gyroabs_step_haptic_bound (env : GyroEnv) (g : GyroAction)
    (e : Bool) (q0 q1 q2 q3 : Int) (hen : g.hdata_enabled = true) :
    (gyroabs_step env g e q0 q1 q2 q3).1.hdata_enabled = true ∧
    (gyroabs_step env g e q0 q1 q2 q3).1.was_out_of_range = true ∧
    hapticCount (gyroabs_step env g e q0 q1 q2 q3).2 ≤
      (if g.was_out_of_range then 0 else 1) := by
  simp only [gyroabs_step]
  exact gyroabs_core_haptic_bound env g _ hen

theorem gyroabs_run_haptic_bound (env : GyroEnv)
    (inputs : List (Bool × Int × Int × Int × Int)) :
    ∀ g : GyroAction, g.hdata_enabled = true →
      hapticCount (gyroabs_run env g inputs).2 ≤
        (if g.was_out_of_range then 0 else 1) := by
  induction inputs with
  | nil =>
    intro g _
    have : hapticCount (gyroabs_run env g []).2 = 0 := rfl
    rw [this]
    split_ifs <;> omega
  | cons inp rest ih =>
    intro g hen
    obtain ⟨e, q0, q1, q2, q3⟩ := inp
    have hstep := gyroabs_step_haptic_bound env g e q0 q1 q2 q3 hen
    have hrest := ih (gyroabs_step env g e q0 q1 q2 q3).1 hstep.1
    rw [hstep.2.1] at hrest
    simp only [gyroabs_run]
    rw [hapticCount_append]
    have h1 := hstep.2.2
    simp only [if_true] at hrest
    split_ifs at h1 ⊢ <;> omega

/-- C2: for the absolute `gyroabs` action with haptics enabled, across
any sequence of evaluate calls the Mapper's `haptic_effect` is invoked
at most once in total — the memory bit is set on the not-saturated
branch as well, so after the first call no later excursion fires again. -/
theorem gyroabs_haptic_at_most_once (env : GyroEnv) (g : GyroAction)
    (inputs : List (Bool × Int × Int × Int × Int))
    (hen : g.hdata_enabled = true) :
    hapticCount (gyroabs_run env g inputs).2 ≤ 1 := by
  have h := gyroabs_run_haptic_bound env inputs g hen
  split_ifs at h <;> omega

/-- Witness for C2: two consecutive saturating samples fire at most one
haptic effect. -/
theorem gyroabs_haptic_at_most_once_witness :
    hapticCount (gyroabs_run env0 g_abs_h
      [(true, 1000000, 0, 0, 0), (true, 1000000, 0, 0, 0)]).2 ≤ 1 :=
  gyroabs_haptic_at_most_once env0 g_abs_h _ rfl

/-- C9: in `gyroabs` the per-axis sensitivity is applied twice — once in
the line-127 difference computation and again at the write — so when the
intermediate clamp does not saturate, the value handed to `clamp_axis`
(and to `move_mouse` after MOUSE_FACTOR scaling) is proportional to the
square of the sensitivity, not linear in it. -/
theorem gyroabs_sensitivity_squared (env : GyroEnv) (g : GyroAction)
    (pyr : Fin 3 → ℚ) (i : Fin 3)
    (hdis : g.hdata_enabled = false)
    (hlo : (STICK_PAD_MIN : ℚ) ≤ gyroabs_pyr1 env g pyr i)
    (hhi : gyroabs_pyr1 env g pyr i ≤ (STICK_PAD_MAX : ℚ)) :
    (gyroabs_core env g pyr).2 =
      (List.finRange 3).map (gyroabs_out env g
        (fun j => clamp (STICK_PAD_MIN : ℚ) (gyroabs_pyr1 env g pyr j)
          (STICK_PAD_MAX : ℚ))) ∧
    (g.axes i = REL_X →
      gyroabs_out env g (fun j => clamp (STICK_PAD_MIN : ℚ)
          (gyroabs_pyr1 env g pyr j) (STICK_PAD_MAX : ℚ)) i =
        .MoveMouse (env.clamp_axis (g.axes i)
          (gyroabs_diff env g pyr i * MAGIC * 2 * MOUSE_FACTOR *
            g.sensitivity i ^ 2)) 0) ∧
    (g.axes i = REL_Y →
      gyroabs_out env g (fun j => clamp (STICK_PAD_MIN : ℚ)
          (gyroabs_pyr1 env g pyr j) (STICK_PAD_MAX : ℚ)) i =
        .MoveMouse 0 (env.clamp_axis (g.axes i)
          (gyroabs_diff env g pyr i * MAGIC * 2 * MOUSE_FACTOR *
            g.sensitivity i ^ 2))) ∧
    (g.axes i ≠ REL_X → g.axes i ≠ REL_Y →
      gyroabs_out env g (fun j => clamp (STICK_PAD_MIN : ℚ)
          (gyroabs_pyr1 env g pyr j) (STICK_PAD_MAX : ℚ)) i =
        .SetAxis (g.axes i)
          (match g.deadzone with
           | some d => env.deadzone_apply d (env.clamp_axis (g.axes i)
               (gyroabs_diff env g pyr i * MAGIC * 2 * g.sensitivity i ^ 2))
           | none => env.clamp_axis (g.axes i)
               (gyroabs_diff env g pyr i * MAGIC * 2 *
                 g.sensitivity i ^ 2))) := by
  have hc : clamp (STICK_PAD_MIN : ℚ) (gyroabs_pyr1 env g pyr i)
      (STICK_PAD_MAX : ℚ) = gyroabs_pyr1 env g pyr i :=
    clamp_eq_self _ _ _ hlo hhi
  have hmouse : gyroabs_pyr1 env g pyr i * MOUSE_FACTOR * g.sensitivity i =
      gyroabs_diff env g pyr i * MAGIC * 2 * MOUSE_FACTOR *
        g.sensitivity i ^ 2 := by
    unfold gyroabs_pyr1
    ring
  have haxis : gyroabs_pyr1 env g pyr i * g.sensitivity i =
      gyroabs_diff env g pyr i * MAGIC * 2 * g.sensitivity i ^ 2 := by
    unfold gyroabs_pyr1
    ring
  refine ⟨?_, ?_, ?_, ?_⟩
  · simp only [gyroabs_core, hdis, if_false, Bool.false_eq_true,
      List.nil_append]
  · intro h
    unfold gyroabs_out
    simp only []
    rw [if_pos h, hc, hmouse]
  · intro h
    have hne : g.axes i ≠ REL_X := by
      rw [h]
      unfold REL_X REL_Y
      omega
    unfold gyroabs_out
    simp only []
    rw [if_neg hne, if_pos h, hc, hmouse]
  · intro h1 h2
    unfold gyroabs_out
    simp only []
    rw [if_neg h1, if_neg h2, hc, haxis]

/-- Witness for C9 at a concrete action, environment and sample. -/
theorem gyroabs_sensitivity_squared_witness :
    (gyroabs_core env0 g_abs0 (fun _ => (0 : ℚ))).2 =
      (List.finRange 3).map (gyroabs_out env0 g_abs0
        (fun j => clamp (STICK_PAD_MIN : ℚ)
          (gyroabs_pyr1 env0 g_abs0 (fun _ => (0 : ℚ)) j)
          (STICK_PAD_MAX : ℚ))) :=
  (gyroabs_sensitivity_squared env0 g_abs0 (fun _ => 0) 0 rfl
    (by norm_num [gyroabs_pyr1, gyroabs_diff, env0, c_or, g_abs0,
      STICK_PAD_MIN, MAGIC])
    (by norm_num [gyroabs_pyr1, gyroabs_diff, env0, c_or, g_abs0,
      STICK_PAD_MAX, MAGIC])).1

end SCC
